import Mathlib

/-
Verification of the paxml checkpoint-manager, experiment-registry and tuning-loop
modules (`paxml/checkpoint_managers.py`, `paxml/experiment_lib.py`,
`paxml/tuning_lib.py`) against their natural-language specification.

The Python code is shallowly embedded: pure functions become Lean functions,
Python dicts become association lists with overwrite-on-set semantics, the
filesystem becomes an explicit association of paths to content tokens, and
exception control flow becomes `Except` values.
-/

/-! ## String utilities

Char-list implementations of a few standard string operations, used so that
every definition evaluates by kernel reduction on concrete inputs. -/

/-- Python `s.startswith(p)`. -/
def str_starts_with (s p : String) : Bool :=
  List.isPrefixOf p.toList s.toList

/-- Python `s.endswith(p)`. -/
def str_ends_with (s p : String) : Bool :=
  List.isSuffixOf p.toList s.toList

/-- The characters before the last `'.'`, or the whole list when no dot
occurs: Python `s.rsplit('.', 1)[0]`. -/
def chars_before_last_dot (cs : List Char) : List Char :=
  match List.dropWhile (fun c => c != '.') cs.reverse with
  | [] => cs
  | _ :: tail => tail.reverse

/-- The characters after the last `'.'`, or the whole list when no dot
occurs: Python `s.split('.')[-1]`. -/
def chars_after_last_dot (cs : List Char) : List Char :=
  (List.takeWhile (fun c => c != '.') cs.reverse).reverse

/-! ## Checkpoint retention controller (checkpoint_managers.py) -/

/-- `OrbaxCheckpointManager.__init__`, line 81:
`self._options.save_interval_steps = self._options.save_interval_steps or 1`.
Python `or` replaces the falsy values `None` and `0` with `1`. -/
def normalized_save_interval (raw : Option Nat) : Nat :=
  match raw with
  | none => 1
  | some n => if n = 0 then 1 else n

/-- `OrbaxCheckpointManager.should_save` (lines 89-104).  `preemption_sync_point`
models `preemption.reached_preemption_sync_point(step)`; `last_checkpoint_step`
models `self._last_checkpoint.step if self._last_checkpoint else None`. -/
def should_save (preemption_sync_point : Bool) (last_checkpoint_step : Option Nat)
    (step : Nat) (save_interval_steps : Nat) : Bool :=
  if preemption_sync_point then true
  else
    match last_checkpoint_step with
    | none => true
    | some last => decide (last < step) && (step % save_interval_steps == 0)

/-- `OrbaxCheckpointManager._checkpoint_name` (lines 83-87): the Flax branch
returns `f'checkpoint_{step}'`.  The non-Flax branch calls
`checkpoints.checkpoint_name`, which is not part of the analysed sources;
modelled from the spec: checkpoint directories are named `<prefix><step>` with
the same `checkpoint_` prefix (spec section 6, flat layout). -/
def checkpoint_name (step : Nat) : String :=
  "checkpoint_" ++ toString step

/-- A filesystem is modelled as an association of directory paths to content
tokens; a path is present iff the directory exists. -/
abbrev FS : Type := List (String × Nat)

/-- Lookup of the content stored at path `p`. -/
def fs_get (fs : FS) (p : String) : Option Nat :=
  (List.find? (fun kv => kv.1 == p) fs).map Prod.snd

/-- Whether path `p` exists in the filesystem. -/
def fs_exists (fs : FS) (p : String) : Bool :=
  (fs_get fs p).isSome

/-- Create or overwrite path `p` with content `c`. -/
def fs_set (fs : FS) (p : String) (c : Nat) : FS :=
  (p, c) :: List.filter (fun kv => kv.1 != p) fs

/-- Remove path `p` (no-op when absent), modelling physical deletion. -/
def fs_remove (fs : FS) (p : String) : FS :=
  List.filter (fun kv => kv.1 != p) fs

/-- `tf.io.gfile.rename(src, dst)`: moves the content at `src` to `dst`.
A missing source raises in the real API; it is modelled as a no-op, and the
theorems below only consider states where the source exists. -/
def fs_rename (fs : FS) (src dst : String) : FS :=
  match fs_get fs src with
  | none => fs
  | some c => fs_set (fs_remove fs src) dst c

/-- `OrbaxCheckpointManager._delete_directory` (lines 181-197).  Only process 0
acts.  `if todelete_subdir:` is Python truthiness, so `None` and the empty
string both select the physical-deletion branch.  The physical deletion
(`super()._delete_directory`) lives in the external orbax superclass; modelled
from the spec: "otherwise the checkpoint directory is physically removed". -/
def delete_directory (process_index : Nat) (todelete_subdir : Option String)
    (root : String) (step : Nat) (fs : FS) : FS :=
  if process_index ≠ 0 then fs
  else
    match todelete_subdir with
    | some sub =>
      if sub = "" then fs_remove fs (root ++ "/" ++ checkpoint_name step)
      else
        let rename_dir := root ++ "/" ++ sub
        let fs1 := if fs_exists fs rename_dir then fs else fs_set fs rename_dir 0
        fs_rename fs1 (root ++ "/" ++ checkpoint_name step)
          (rename_dir ++ "/" ++ checkpoint_name step)
    | none => fs_remove fs (root ++ "/" ++ checkpoint_name step)

/-! ## Experiment lookup (experiment_lib.py) -/

/-- The experiment registry: experiment name to experiment class (classes are
identified by opaque tokens). -/
abbrev Registry : Type := List (String × Nat)

/-- `experiment_registry.get(name)`. -/
def registry_get (r : Registry) (name : String) : Option Nat :=
  (List.find? (fun kv => kv.1 == name) r).map Prod.snd

/-- The import world: which module names are importable, and the registry
entries each module registers as an import side effect, together with the
current registry contents. -/
structure ImportWorld where
  modules : List (String × Registry)
  registry : Registry

/-- `experiment_name.rsplit('.', 1)[0]`: everything before the last dot, or the
whole string when it contains no dot. -/
def module_name (experiment_name : String) : String :=
  String.mk (chars_before_last_dot experiment_name.toList)

/-- `importlib.import_module(m)`: returns the registry extended with the
module's registrations, or `none` when the module is not found
(`ModuleNotFoundError`). -/
def import_module (w : ImportWorld) (m : String) : Option Registry :=
  (List.find? (fun kv => kv.1 == m) w.modules).map (fun entry => w.registry ++ entry.2)

/-- `experiment_lib.get_experiment` (lines 5-21): registry lookup, then
import-and-retry, else a could-not-find `ValueError` naming the experiment. -/
def get_experiment (w : ImportWorld) (experiment_name : String) : Except String Nat :=
  match registry_get w.registry experiment_name with
  | some c => Except.ok c
  | none =>
    match import_module w (module_name experiment_name) with
    | none =>
      Except.error ("Could not find experiment `" ++ experiment_name ++ "`.")
    | some reg2 =>
      match registry_get reg2 experiment_name with
      | some c => Except.ok c
      | none =>
        Except.error ("Could not find experiment `" ++ experiment_name ++ "`.")

/-! ## Metric aggregation (tuning_lib.py) -/

/-- A Python float-or-None value: `none` models Python `None`.  Metric float
values are identified by integer tokens (their numeric identity is irrelevant
to the merge logic). -/
abbrev PyVal : Type := Option Int

/-- A Python dict from metric names to values, with overwrite-on-set
semantics. -/
abbrev FDict : Type := List (String × PyVal)

/-- Python dict assignment `d[k] = v`. -/
def dset (d : FDict) (k : String) (v : PyVal) : FDict :=
  (k, v) :: List.filter (fun kv => kv.1 != k) d

/-- Python dict lookup: `some v` when the key is bound (possibly to `None`),
`none` when the key is absent. -/
def dget (d : FDict) (k : String) : Option PyVal :=
  (List.find? (fun kv => kv.1 == k) d).map Prod.snd

/-- `target.update(source)`: every binding of `source` is written into
`target`, later writes overwriting earlier ones. -/
def dupdate (target source : FDict) : FDict :=
  List.foldl (fun t kv => dset t kv.1 kv.2) target source

/-- Modelled from the spec: `metric_utils.update_float_dict(target, source,
prefix)` is imported from a paxml module outside the analysed sources; per the
spec's prefixing scheme it writes each `k` of `source` into `target` under key
`prefix/k`, or under `k` itself when no prefix is given. -/
def update_float_dict (target source : FDict) (pfx : Option String) : FDict :=
  match pfx with
  | none => dupdate target source
  | some p => List.foldl (fun t kv => dset t (p ++ "/" ++ kv.1) kv.2) target source

/-- `tuning_lib.EvalMetrics` (lines 318-322): `input_p` carries the dataset
names (`p.name` is all the aggregator reads from an input config). -/
structure EvalMetrics where
  input_p : Option (List String)
  metrics_list : Option (List (Option FDict))
  scoring_metrics_list : Option (List (Option FDict))
  steps_per_sec : Option Int

/-- `tuning_lib.DecodeMetrics` (lines 325-330). -/
structure DecodeMetrics where
  input_p : Option (List String)
  metrics_list : Option (List (Option FDict))
  processed_metrics_list : Option (List (Option FDict))
  seqio_metrics_list : Option (List (Option FDict))
  steps_per_sec : Option Int

/-- `_add_input_based_metrics` (lines 391-408), closed over the accumulated
`metrics` dict.  Entries whose metrics value is `None` are skipped.  The
source asserts the two lists have equal length; `List.zip` realises the same
pairing for equal-length lists. -/
def add_input_based_metrics (metrics : FDict) (input_p : Option (List String))
    (metrics_list : Option (List (Option FDict)))
    (dataset_type : Option String) (category : Option String) : FDict :=
  match input_p, metrics_list with
  | some ps, some ms =>
    let merged := List.foldl (fun acc pm =>
      match pm.2 with
      | none => acc
      | some m =>
        let pfx1 := match dataset_type with
          | none => pm.1
          | some dt => dt ++ "_" ++ pm.1
        let pfx2 := match category with
          | none => pfx1
          | some c => pfx1 ++ "/" ++ c
        update_float_dict acc m (some pfx2)) ([] : FDict) (List.zip ps ms)
    update_float_dict metrics merged none
  | _, _ => metrics

/-- `_aggregate_metrics` (lines 375-437).  The source tests `if eval_metrics:`
for the family merges and `if eval_metrics is not None:` for the
steps-per-sec writes; a `NamedTuple` instance is always truthy, so both mean
"the bundle was supplied" and are modelled as `Option.isSome`. -/
def aggregate_metrics (train_metrics eval_train_metrics : Option FDict)
    (eval_metrics : Option EvalMetrics) (decode_metrics : Option DecodeMetrics)
    (num_params train_steps_per_sec : Option Int) : FDict :=
  let m0 : FDict := []
  let m1 := match train_metrics with
    | none => m0
    | some tm => update_float_dict m0 tm (some "train")
  let m2 := match eval_train_metrics with
    | none => m1
    | some em => update_float_dict m1 em (some "eval_train/metrics")
  let m3 := match eval_metrics with
    | none => m2
    | some ev =>
      let a := add_input_based_metrics m2 ev.input_p ev.metrics_list
        (some "eval_test") (some "metrics")
      add_input_based_metrics a ev.input_p ev.scoring_metrics_list
        (some "eval_test") (some "scoring_eval")
  let m4 := match decode_metrics with
    | none => m3
    | some dm =>
      let a := add_input_based_metrics m3 dm.input_p dm.metrics_list
        (some "decode_test") none
      let b := add_input_based_metrics a dm.input_p dm.processed_metrics_list
        (some "decode_test") none
      add_input_based_metrics b dm.input_p dm.seqio_metrics_list
        (some "decode_test") none
  let m5 := match train_steps_per_sec with
    | none => m4
    | some v => dset m4 "train_steps_per_sec" (some v)
  let m6 := match eval_metrics with
    | none => m5
    | some ev => dset m5 "eval_steps_per_sec" ev.steps_per_sec
  let m7 := match decode_metrics with
    | none => m6
    | some dm => dset m6 "decode_steps_per_sec" dm.steps_per_sec
  match num_params with
  | none => m7
  | some v => dset m7 "num_params" (some v)

/-! ## Trial lifecycle (tuning_lib.py) -/

/-- Exception classes relevant to the per-trial control flow:
`FloatingPointError` (raised on NaN reward) and user-configured classes from
`SearchHParams.errors_to_skip`, identified by opaque codes. -/
inductive Exc where
  | floatingPointError
  | customError (code : Nat)
deriving DecidableEq

/-- The result of a Python float-returning reward function: a NaN flag
(`math.isnan(reward)`) plus a value token for the non-NaN case. -/
structure RewardVal where
  isNaN : Bool
  val : Int
deriving DecidableEq

/-- A measurement reported through `feedback.add_measurement`. -/
structure Measurement where
  reward : Int
  metrics : FDict
  step : Nat
deriving DecidableEq

/-- Observable outcome of one invocation of the early-stopping callback:
the measurement reported to the search controller (if any), whether
`feedback.done()` was reached, and the returned stop decision. -/
structure EarlyStopOutcome where
  measurement : Option Measurement
  trial_done : Bool
  stop : Bool
deriving DecidableEq

/-- Metric-name suffixing in `should_stop_early` (lines 247-248):
`if sub_experiment_id:` appends `:{sub_experiment_id}` to every key. -/
def suffix_metrics (metrics : FDict) (sub_experiment_id : String) : FDict :=
  if sub_experiment_id = "" then metrics
  else List.map (fun kv => (kv.1 ++ ":" ++ sub_experiment_id, kv.2)) metrics

/-- Modelled from the spec: `automl.SUB_EXPERIMENT_STEP_OFFSET` lives in a
paxml module outside the analysed sources; the spec (and tuning_lib's own
`SUB_EXPERIMENT_STEP_INTERVAL` comment, lines 47-53) fixes it to
1,000,000,000. -/
def SUB_EXPERIMENT_STEP_OFFSET : Nat := 1000000000

/-- `tune`, line 189: `tuning_step_start=i * automl.SUB_EXPERIMENT_STEP_OFFSET`
for the zero-based sub-experiment index `i`. -/
def tuning_step_start (i : Nat) : Nat :=
  i * SUB_EXPERIMENT_STEP_OFFSET

/-- The early-stopping callback built by `_get_early_stopping_fn`
(lines 233-277).  `has_eval_or_decode` models
`running_mode & EVAL or running_mode & DECODE`.  External effects
(`feedback.add_measurement`, barrier syncs, the cross-step final measurement
aggregated from the controller-held trial history) are projected onto the
`EarlyStopOutcome` record; `trial_done` records whether the
`feedback.done()` call of lines 261-270 is reached.  A NaN reward raises
`FloatingPointError` (lines 252-253) before any of that happens. -/
def should_stop_early (is_metric_reporting_role : Bool) (process_index : Nat)
    (has_eval_or_decode : Bool) (reward_fn : FDict → Nat → RewardVal)
    (sub_experiment_id : String) (tuning_step_begin : Nat)
    (is_last_experiment : Bool) (metrics : FDict) (global_step : Nat)
    (is_last_ckpt : Bool) (feedback_should_stop : Bool) :
    Except Exc EarlyStopOutcome :=
  if is_metric_reporting_role then
    if (process_index == 0) && has_eval_or_decode then
      if (reward_fn (suffix_metrics metrics sub_experiment_id)
            (tuning_step_begin + global_step)).isNaN then
        Except.error Exc.floatingPointError
      else
        Except.ok
          { measurement := some
              { reward := (reward_fn (suffix_metrics metrics sub_experiment_id)
                  (tuning_step_begin + global_step)).val
                metrics := suffix_metrics metrics sub_experiment_id
                step := tuning_step_begin + global_step }
            trial_done := is_last_ckpt && is_last_experiment && (process_index == 0)
            stop := feedback_should_stop }
    else
      Except.ok
        { measurement := none
          trial_done := is_last_ckpt && is_last_experiment && (process_index == 0)
          stop := feedback_should_stop }
  else
    Except.ok { measurement := none, trial_done := false, stop := feedback_should_stop }

/-- The step of the measurement reported by one callback invocation, if one
was reported. -/
def reported_step (r : Except Exc EarlyStopOutcome) : Option Nat :=
  match r with
  | Except.error _ => none
  | Except.ok out => Option.map Measurement.step out.measurement

/-- Disposition of one trial as seen by the tuning loop. -/
inductive TrialOutcome where
  | completed
  | skipped (e : Exc)
  | raised (e : Exc)
deriving DecidableEq

/-- Modelled from the spec: pyglove's `feedback.skip_on_exceptions(allow)`
scope (external search controller) converts an exception whose class is in
the allowlist into a skipped trial reported to the controller; any other
exception propagates. -/
def skip_on_exceptions (allow : List Exc) (body : Except Exc Unit) : TrialOutcome :=
  match body with
  | Except.ok _ => TrialOutcome.completed
  | Except.error e =>
    if e ∈ allow then TrialOutcome.skipped e else TrialOutcome.raised e

/-- `tune`, line 174: the skip scope is entered with
`[FloatingPointError] + errors_to_skip`, so the NaN-reward class is always
included. -/
def trial_skip_allowlist (errors_to_skip : List Exc) : List Exc :=
  Exc.floatingPointError :: errors_to_skip

/-- The per-trial iteration of `tune` (lines 158-220): each trial body runs
inside the skip scope; a skipped or completed trial lets the loop proceed to
the next trial, while an unhandled exception propagates and aborts the
loop. -/
def tune_loop (errors_to_skip : List Exc) : List (Except Exc Unit) → List TrialOutcome
  | [] => []
  | body :: rest =>
    match skip_on_exceptions (trial_skip_allowlist errors_to_skip) body with
    | TrialOutcome.raised e => [TrialOutcome.raised e]
    | TrialOutcome.completed => TrialOutcome.completed :: tune_loop errors_to_skip rest
    | TrialOutcome.skipped e => TrialOutcome.skipped e :: tune_loop errors_to_skip rest

/-- `tuning_lib.is_last_checkpoint` (lines 440-458).  `has_eval` and
`has_decode` model the `running_mode & EVAL` / `running_mode & DECODE` flag
tests; steps and intervals are Python ints. -/
def is_last_checkpoint (has_eval has_decode : Bool)
    (global_step num_train_steps eval_interval_steps decode_interval_steps
     save_interval_steps : Int) : Bool :=
  let remaining := num_train_steps - global_step
  if remaining = 0 then true
  else
    (has_eval && decide (remaining < max eval_interval_steps save_interval_steps)) ||
    (has_decode && decide (remaining < max decode_interval_steps save_interval_steps))

/-! ## Trial directory naming (tuning_lib.py, TrialDirectoryNameGenerator) -/

/-- A pyglove literal value attached to a decision-point option:
`Union[str, int, float]` in `format_literal`'s signature.  String literals of
categorical choices arrive repr-quoted (e.g. `'abc'` including the quotes). -/
inductive Literal where
  | int (n : Int)
  | float (q : ℚ)
  | str (s : String)
deriving DecidableEq

/-- The per-decision rendering mode (inner enum `DecisionFormat`). -/
inductive DecisionFormat where
  | empty
  | value
  | literal
deriving DecidableEq

/-- One decision point of the search space: a custom (opaque) point, a
categorical `Choices` with its literal option values, or a `Float` range. -/
inductive DecisionPoint where
  | customDP (name : String)
  | choices (name : String) (literal_values : List Literal)
  | floatDP (name : String)
deriving DecidableEq

/-- The DNA's decision for one decision point: the chosen option index for a
`Choices` point, or the chosen value for a `Float` point. -/
inductive Decision where
  | choice (index : Nat)
  | floatV (q : ℚ)
deriving DecidableEq

/-- The `path_regex` check of `__init__` (line 490):
`^[A-Za-z0-9\-_\.]+$`. -/
def path_friendly_char (c : Char) : Bool :=
  c.isAlpha || c.isDigit || c == '-' || c == '_' || c == '.'

/-- `path_friendly(v)`: the regex requires at least one character, all from
the allowed class. -/
def path_friendly (s : String) : Bool :=
  !s.isEmpty && List.all s.toList path_friendly_char

/-- The exponent part of Python's `.3e` formatting: sign and at least two
digits. -/
def format_exp_part (e : Int) : String :=
  let digits := toString e.natAbs
  let padded := if e.natAbs < 10 then "0" ++ digits else digits
  (if 0 ≤ e then "e+" else "e-") ++ padded

/-- The four-digit mantissa (1000..9999 scaled by 1000) and decimal exponent
of `n / den` for `n, den > 0`: the exponent `e` is the floor of the base-10
logarithm, the mantissa is `n / den * 10 ^ (3 - e)` rounded half-up, bumping
the exponent when rounding carries to 10000. -/
def sci3_mantissa_exp (n den : Nat) : Nat × Int :=
  let dn : Int := Int.ofNat (toString n).length
  let dd : Int := Int.ofNat (toString den).length
  let e0 : Int := dn - dd
  let e : Int :=
    if den * 10 ^ e0.toNat ≤ n * 10 ^ (-e0).toNat then e0 else e0 - 1
  let s : Int := 3 - e
  let bigN := n * 10 ^ s.toNat
  let bigD := den * 10 ^ (-s).toNat
  let m1000 := (2 * bigN + bigD) / (2 * bigD)
  if 10000 ≤ m1000 then (1000, e + 1) else (m1000, e)

/-- Python `f'{x:.3e}'` on the rationals: 3-significant-digit scientific
notation (`d.ddde±EE`).  Python rounds the decimal expansion of an IEEE
double (ties to even); on exactly representable inputs away from ties, as
used below, the two agree. -/
def format_sci3 (q : ℚ) : String :=
  if q.num = 0 then "0.000e+00"
  else
    let sign := if q.num < 0 then "-" else ""
    let me := sci3_mantissa_exp q.num.natAbs q.den
    let ds := toString me.1
    sign ++ ds.take 1 ++ "." ++ ds.drop 1 ++ format_exp_part me.2

/-- `TrialDirectoryNameGenerator._format_categorical` (lines 528-540): strip
surrounding single quotes, or extract the bare class name from a fully
qualified `<class '...'>` repr (the regex `^<class \x27(.+)\x27>$`, whose
`.` does not match a newline); otherwise return the literal unchanged. -/
def format_categorical (literal : String) : String :=
  if str_starts_with literal "\x27" && str_ends_with literal "\x27" then
    (literal.drop 1).dropRight 1
  else if str_starts_with literal "<class" then
    if str_starts_with literal "<class \x27" && str_ends_with literal "\x27>" &&
        decide (11 ≤ literal.length) &&
        List.all ((literal.drop 8).dropRight 2).toList (fun c => c != '\n') then
      let qual_name := (literal.drop 8).dropRight 2
      String.mk (chars_after_last_dot qual_name.toList)
    else literal
  else literal

/-- `TrialDirectoryNameGenerator.format_literal` (lines 516-526).  The
per-literal cache of the source is pure memoisation with no observable
effect and is not modelled. -/
def format_literal (l : Literal) : String :=
  match l with
  | Literal.int n => toString n
  | Literal.float q => format_sci3 q
  | Literal.str s => format_categorical s

/-- The per-decision-point format chosen in `__init__` (lines 501-509). -/
def decision_format (dp : DecisionPoint) : DecisionFormat :=
  match dp with
  | DecisionPoint.customDP _ => DecisionFormat.empty
  | DecisionPoint.choices _ lits =>
    if List.all lits (fun v => path_friendly (format_literal v)) then
      DecisionFormat.literal
    else DecisionFormat.value
  | DecisionPoint.floatDP _ => DecisionFormat.value

/-- `dp.name`. -/
def dp_name : DecisionPoint → String
  | DecisionPoint.customDP n => n
  | DecisionPoint.choices n _ => n
  | DecisionPoint.floatDP n => n

/-- `__init__` lines 510-511: decision names are included iff the sum of
their lengths is strictly below the threshold. -/
def include_decision_names (dna_spec : List DecisionPoint) (threshold : Nat) : Bool :=
  List.foldl (fun acc dp => acc + (dp_name dp).length) 0 dna_spec < threshold

/-- The value string for one decision in `dirname` (lines 545-560): custom
points render as the fixed placeholder, path-friendly categorical literals
render via `format_literal`, float values render in scientific notation, and
other categorical choices fall back to the parenthesised option index.  The
final case covers DNA/spec mismatches, which the source rejects with
assertions and which cannot arise for a DNA drawn from the spec. -/
def decision_value_str (dp : DecisionPoint) (d : Decision) : String :=
  match decision_format dp, dp, d with
  | DecisionFormat.empty, _, _ => "(CUSTOM)"
  | DecisionFormat.literal, DecisionPoint.choices _ lits, Decision.choice i =>
    format_literal (List.getD lits i (Literal.int 0))
  | DecisionFormat.value, DecisionPoint.floatDP _, Decision.floatV q =>
    format_literal (Literal.float q)
  | DecisionFormat.value, DecisionPoint.choices _ _, Decision.choice i =>
    "(" ++ toString i ++ ")"
  | _, _, _ => ""

/-- `os.path.join` for two components: an absolute second component resets
the path; otherwise the components are joined with a single separator. -/
def os_path_join (a b : String) : String :=
  if str_starts_with b "/" then b
  else if a = "" || str_ends_with a "/" then a ++ b
  else a ++ "/" ++ b

/-- `TrialDirectoryNameGenerator.dirname` (lines 542-566), with the
generator state (`root_dir`, threshold, `dna_spec`) passed explicitly. -/
def dirname (root_dir : String) (total_name_length_threshold : Nat)
    (dna_spec : List DecisionPoint) (trial_id : Nat) (dna : List Decision) : String :=
  let kv_pairs := List.map (fun pd => (dp_name pd.1, decision_value_str pd.1 pd.2))
    (List.zip dna_spec dna)
  let items :=
    if include_decision_names dna_spec total_name_length_threshold then
      List.map (fun kv => kv.1 ++ "=" ++ kv.2) kv_pairs
    else
      List.map Prod.snd kv_pairs
  os_path_join (os_path_join root_dir (toString trial_id)) (String.intercalate "|" items)

/-- The search space of the specification's directory-naming example:
`x` an integer choice, `y` a categorical choice with repr-quoted string
literals, `z` a choice among three literals that are not filesystem
friendly. -/
def c6_spec : List DecisionPoint :=
  [DecisionPoint.choices "x" [Literal.int 1, Literal.int 2],
   DecisionPoint.choices "y" [Literal.str "\x27abc\x27", Literal.str "\x27def\x27"],
   DecisionPoint.choices "z" [Literal.str "a/b", Literal.str "c/d", Literal.str "e/f"]]

/-- The example DNA: `x` picks option 0 (literal 1), `y` picks option 0
(literal `'abc'`), `z` picks option 1 (the second of three options). -/
def c6_dna : List Decision :=
  [Decision.choice 0, Decision.choice 0, Decision.choice 1]

/-- The rational one-half, constructed in normal form, used as a concrete
float decision value. -/
def c6_half : ℚ := ⟨1, 2, by decide, by decide⟩

/-- The rational 123456, constructed in normal form. -/
def c6_big : ℚ := ⟨123456, 1, by decide, by decide⟩

/-! ## Helper lemmas -/

theorem find_key_filter_ne {α : Type} (l : List (String × α)) (k k' : String)
    (h : k' ≠ k) :
    List.find? (fun kv => kv.1 == k') (List.filter (fun kv => kv.1 != k) l)
      = List.find? (fun kv => kv.1 == k') l := by
  induction l with
  | nil => rfl
  | cons a t ih =>
    by_cases hk : a.1 = k
    · have hp : (k == k') = false := by
        simp only [beq_eq_false_iff_ne]
        exact fun hc => h hc.symm
      simp [List.filter_cons, hk, List.find?_cons, hp, ih]
    · by_cases hk' : a.1 = k'
      · simp [List.filter_cons, hk, List.find?_cons, hk', h]
      · simp [List.filter_cons, hk, List.find?_cons, hk', ih]

theorem find_key_filter_self {α : Type} (l : List (String × α)) (p : String) :
    List.find? (fun kv => kv.1 == p) (List.filter (fun kv => kv.1 != p) l)
      = none := by
  induction l with
  | nil => rfl
  | cons a t ih =>
    by_cases hp : a.1 = p
    · simp [List.filter_cons, hp, ih]
    · simp [List.filter_cons, hp, List.find?_cons, ih]

theorem dget_dset_same (d : FDict) (k : String) (v : PyVal) :
    dget (dset d k v) k = some v := by
  simp [dget, dset, List.find?_cons]

theorem dget_dset_other (d : FDict) (k k' : String) (v : PyVal) (h : k' ≠ k) :
    dget (dset d k v) k' = dget d k' := by
  have hk : (k == k') = false := by
    simp only [beq_eq_false_iff_ne]
    exact fun hc => h hc.symm
  simp only [dget, dset, List.find?_cons, hk]
  rw [find_key_filter_ne d k k' h]

theorem fs_get_set_same (fs : FS) (p : String) (c : Nat) :
    fs_get (fs_set fs p c) p = some c := by
  simp [fs_get, fs_set, List.find?_cons]

theorem fs_get_set_other (fs : FS) (p p' : String) (c : Nat) (h : p' ≠ p) :
    fs_get (fs_set fs p c) p' = fs_get fs p' := by
  have hp : (p == p') = false := by
    simp only [beq_eq_false_iff_ne]
    exact fun hc => h hc.symm
  simp only [fs_get, fs_set, List.find?_cons, hp]
  rw [find_key_filter_ne fs p p' h]

theorem fs_get_remove_same (fs : FS) (p : String) :
    fs_get (fs_remove fs p) p = none := by
  unfold fs_get fs_remove
  rw [find_key_filter_self]
  rfl

theorem fs_get_remove_other (fs : FS) (p p' : String) (h : p' ≠ p) :
    fs_get (fs_remove fs p) p' = fs_get fs p' := by
  unfold fs_get fs_remove
  rw [find_key_filter_ne fs p p' h]

theorem string_length_pos_of_ne (s : String) (h : s ≠ "") : 0 < s.length := by
  cases s with
  | mk data =>
    cases data with
    | nil => exact absurd rfl h
    | cons c cs => simp [String.length]

theorem string_ne_of_length_ne {a b : String} (h : a.length ≠ b.length) :
    a ≠ b := by
  intro he
  exact h (he ▸ rfl)

/-! ## Claim theorems -/

/-- C1: `should_save` returns true on the first call, made when no checkpoint
has ever been saved (the last-checkpoint state is absent); a raised
preemption signal for the step forces true regardless of cadence; and
otherwise, with a last saved step recorded, the call returns true iff the
step is strictly greater than the last saved step and the step falls on the
save interval (`step % save_interval_steps == 0`). -/
theorem c1_should_save_contract (preempt : Bool) (last : Option Nat)
    (step interval : Nat) (_hpos : 0 < interval) :
    (last = none → should_save preempt last step interval = true) ∧
    (preempt = true → should_save preempt last step interval = true) ∧
    (∀ l, last = some l → preempt = false →
      (should_save preempt last step interval = true ↔
        l < step ∧ step % interval = 0)) := by
  refine ⟨fun h => ?_, fun h => ?_, fun l hl hp => ?_⟩
  · subst h
    cases preempt <;> simp [should_save]
  · subst h
    simp [should_save]
  · subst hl
    subst hp
    simp [should_save]

/-- C1 witness: the contract evaluated at concrete inputs — a first call, a
preempted call, and a regular cadence call with interval 2. -/
theorem c1_should_save_contract_witness :
    should_save false none 5 2 = true ∧
    should_save true (some 7) 5 2 = true ∧
    (should_save false (some 2) 6 2 = true ↔ 2 < 6 ∧ 6 % 2 = 0) :=
  ⟨(c1_should_save_contract false none 5 2 (by decide)).1 rfl,
   (c1_should_save_contract true (some 7) 5 2 (by decide)).2.1 rfl,
   (c1_should_save_contract false (some 2) 6 2 (by decide)).2.2 2 rfl rfl⟩

/-- C9: the constructor normalizes `save_interval_steps`, replacing an unset
(`None`) or zero value with 1 and keeping positive values, so the divisor of
`should_save`'s cadence test is always a positive integer and the modulo
never divides by zero. -/
theorem c9_save_interval_normalization (raw : Option Nat) :
    0 < normalized_save_interval raw ∧
    (raw = none → normalized_save_interval raw = 1) ∧
    (raw = some 0 → normalized_save_interval raw = 1) ∧
    (∀ n, raw = some n → 0 < n → normalized_save_interval raw = n) := by
  refine ⟨?_, fun h => by subst h; rfl, fun h => by subst h; rfl,
    fun n h hn => ?_⟩
  · cases raw with
    | none => simp [normalized_save_interval]
    | some n =>
      by_cases h : n = 0
      · simp [normalized_save_interval, h]
      · simp [normalized_save_interval, h]
        omega
  · subst h
    have : n ≠ 0 := by omega
    simp [normalized_save_interval, this]

/-- C9 witness: normalization evaluated at absent, zero and positive
inputs. -/
theorem c9_save_interval_normalization_witness :
    0 < normalized_save_interval (some 0) ∧
    normalized_save_interval none = 1 ∧
    normalized_save_interval (some 0) = 1 ∧
    normalized_save_interval (some 3) = 3 :=
  ⟨(c9_save_interval_normalization (some 0)).1,
   (c9_save_interval_normalization none).2.1 rfl,
   (c9_save_interval_normalization (some 0)).2.2.1 rfl,
   (c9_save_interval_normalization (some 3)).2.2.2 3 rfl (by decide)⟩

/-- C5: `is_last_checkpoint` returns true when `global_step` equals
`num_train_steps`; when `global_step` is strictly below `num_train_steps` it
returns true iff, for an active eval mode, the remaining steps are strictly
fewer than the larger of the eval interval and the save interval, or, for an
active decode mode, strictly fewer than the larger of the decode interval
and the save interval; otherwise it returns false. -/
theorem c5_is_last_checkpoint_contract (has_eval has_decode : Bool)
    (gs nts ei di si : Int) :
    (gs = nts → is_last_checkpoint has_eval has_decode gs nts ei di si = true) ∧
    (gs < nts →
      (is_last_checkpoint has_eval has_decode gs nts ei di si = true ↔
        (has_eval = true ∧ nts - gs < max ei si) ∨
        (has_decode = true ∧ nts - gs < max di si))) := by
  constructor
  · intro h
    subst h
    simp [is_last_checkpoint]
  · intro h
    have hne : ¬(nts - gs = 0) := by omega
    simp [is_last_checkpoint, hne]

/-- C5 witness: the boundary case `global_step = num_train_steps` and an
eval-mode case with 5 remaining steps below `max 7 3`. -/
theorem c5_is_last_checkpoint_contract_witness :
    is_last_checkpoint true false 10 10 3 4 5 = true ∧
    is_last_checkpoint true false 5 10 7 4 3 = true :=
  ⟨(c5_is_last_checkpoint_contract true false 10 10 3 4 5).1 rfl,
   ((c5_is_last_checkpoint_contract true false 5 10 7 4 3).2 (by decide)).mpr
     (Or.inl ⟨rfl, by decide⟩)⟩

/-- C8: experiment lookup is two-tier — `get_experiment` returns the class
from the static registry when present; otherwise it imports the module named
by the dotted prefix of the name and retries the registry lookup, returning
the class if now present; and if the module import fails or the retried
lookup still misses, it fails with a could-not-find error naming the
requested experiment. -/
theorem c8_get_experiment_contract (w : ImportWorld) (name : String) :
    (∀ c, registry_get w.registry name = some c →
      get_experiment w name = Except.ok c) ∧
    (registry_get w.registry name = none →
      import_module w (module_name name) = none →
      get_experiment w name =
        Except.error ("Could not find experiment `" ++ name ++ "`.")) ∧
    (∀ reg2 c, registry_get w.registry name = none →
      import_module w (module_name name) = some reg2 →
      registry_get reg2 name = some c →
      get_experiment w name = Except.ok c) ∧
    (∀ reg2, registry_get w.registry name = none →
      import_module w (module_name name) = some reg2 →
      registry_get reg2 name = none →
      get_experiment w name =
        Except.error ("Could not find experiment `" ++ name ++ "`.")) := by
  refine ⟨fun c h => ?_, fun h1 h2 => ?_, fun reg2 c h1 h2 h3 => ?_,
    fun reg2 h1 h2 h3 => ?_⟩
  · simp [get_experiment, h]
  · simp [get_experiment, h1, h2]
  · simp [get_experiment, h1, h2, h3]
  · simp [get_experiment, h1, h2, h3]

/-- C8 witness: a world with registry entry `r.Known` and importable module
`m` registering `m.Exp`, exercised on a registry hit, an import-retry hit,
and a missing module. -/
theorem c8_get_experiment_contract_witness :
    get_experiment
      { modules := [("m", [("m.Exp", 7)])], registry := [("r.Known", 1)] }
      "r.Known" = Except.ok 1 ∧
    get_experiment
      { modules := [("m", [("m.Exp", 7)])], registry := [("r.Known", 1)] }
      "m.Exp" = Except.ok 7 ∧
    get_experiment
      { modules := [("m", [("m.Exp", 7)])], registry := [("r.Known", 1)] }
      "z.Exp" =
      Except.error ("Could not find experiment `" ++ "z.Exp" ++ "`.") :=
  ⟨(c8_get_experiment_contract
      { modules := [("m", [("m.Exp", 7)])], registry := [("r.Known", 1)] }
      "r.Known").1 1 (by decide),
   (c8_get_experiment_contract
      { modules := [("m", [("m.Exp", 7)])], registry := [("r.Known", 1)] }
      "m.Exp").2.2.1 [("r.Known", 1), ("m.Exp", 7)] 7 (by decide) (by decide)
      (by decide),
   (c8_get_experiment_contract
      { modules := [("m", [("m.Exp", 7)])], registry := [("r.Known", 1)] }
      "z.Exp").2.1 (by decide) (by decide)⟩

/-- C7: `delete(step)` performs a filesystem action only on process 0; on
process 0 with a truthy `todelete_subdir`, the checkpoint directory is
renamed into `<root>/<todelete_subdir>/<name>` — creating the soft-delete
directory on demand when it does not exist — after which the original path
no longer exists while the archive path holds the original content; without
`todelete_subdir` the checkpoint directory is physically removed. -/
theorem c7_delete_directory_contract :
    (∀ p sub root step fs, p ≠ 0 → delete_directory p sub root step fs = fs) ∧
    (∀ sub root step fs c, sub ≠ "" →
      fs_get fs (root ++ "/" ++ checkpoint_name step) = some c →
      fs_get (delete_directory 0 (some sub) root step fs)
          (root ++ "/" ++ checkpoint_name step) = none ∧
      fs_get (delete_directory 0 (some sub) root step fs)
          (root ++ "/" ++ sub ++ "/" ++ checkpoint_name step) = some c) ∧
    (∀ sub root step fs c, sub ≠ "" →
      fs_get fs (root ++ "/" ++ checkpoint_name step) = some c →
      fs_exists fs (root ++ "/" ++ sub) = false →
      root ++ "/" ++ sub ≠ root ++ "/" ++ checkpoint_name step →
      fs_exists (delete_directory 0 (some sub) root step fs)
        (root ++ "/" ++ sub) = true) ∧
    (∀ root step fs,
      delete_directory 0 none root step fs
        = fs_remove fs (root ++ "/" ++ checkpoint_name step) ∧
      fs_get (delete_directory 0 none root step fs)
        (root ++ "/" ++ checkpoint_name step) = none) := by
  have hname : ∀ step : Nat, (checkpoint_name step).length
      = 11 + (toString step).length := by
    intro step
    have h11 : ("checkpoint_" : String).length = 11 := rfl
    simp [checkpoint_name, String.length_append, h11]
  have hslash : ("/" : String).length = 1 := rfl
  refine ⟨fun p sub root step fs hp => ?_, fun sub root step fs c hs hsrc => ?_,
    fun sub root step fs c hs hsrc hex hrd => ?_, fun root step fs => ?_⟩
  · simp [delete_directory, hp]
  · have hsubpos := string_length_pos_of_ne sub hs
    have hdst_ne_src :
        root ++ "/" ++ sub ++ "/" ++ checkpoint_name step
          ≠ root ++ "/" ++ checkpoint_name step := by
      apply string_ne_of_length_ne
      simp [String.length_append, hslash]
      omega
    have hsrc_ne_dst := Ne.symm hdst_ne_src
    simp only [delete_directory, if_neg (by omega : ¬(0 : Nat) ≠ 0), if_neg hs]
    by_cases hex : fs_exists fs (root ++ "/" ++ sub)
    · simp only [hex, if_true, fs_rename, hsrc]
      constructor
      · rw [fs_get_set_other _ _ _ _ hsrc_ne_dst, fs_get_remove_same]
      · rw [fs_get_set_same]
    · have hrd_ne_src : root ++ "/" ++ sub ≠ root ++ "/" ++ checkpoint_name step := by
        intro he
        rw [he] at hex
        simp [fs_exists, hsrc] at hex
      have hfs1 : (if fs_exists fs (root ++ "/" ++ sub) = true then fs
          else fs_set fs (root ++ "/" ++ sub) 0)
          = fs_set fs (root ++ "/" ++ sub) 0 := by
        simp [hex]
      rw [hfs1]
      have hsrc1 : fs_get (fs_set fs (root ++ "/" ++ sub) 0)
          (root ++ "/" ++ checkpoint_name step) = some c := by
        rw [fs_get_set_other _ _ _ _ (Ne.symm hrd_ne_src)]
        exact hsrc
      simp only [fs_rename, hsrc1]
      constructor
      · rw [fs_get_set_other _ _ _ _ hsrc_ne_dst, fs_get_remove_same]
      · rw [fs_get_set_same]
  · have hsubpos := string_length_pos_of_ne sub hs
    have hrd_ne_dst :
        root ++ "/" ++ sub
          ≠ root ++ "/" ++ sub ++ "/" ++ checkpoint_name step := by
      apply string_ne_of_length_ne
      simp [String.length_append, hslash, hname]
      omega
    simp only [delete_directory, if_neg (by omega : ¬(0 : Nat) ≠ 0), if_neg hs]
    have hfs1 : (if fs_exists fs (root ++ "/" ++ sub) = true then fs
        else fs_set fs (root ++ "/" ++ sub) 0)
        = fs_set fs (root ++ "/" ++ sub) 0 := by
      simp [hex]
    rw [hfs1]
    have hsrc1 : fs_get (fs_set fs (root ++ "/" ++ sub) 0)
        (root ++ "/" ++ checkpoint_name step) = some c := by
      rw [fs_get_set_other _ _ _ _ (Ne.symm hrd)]
      exact hsrc
    simp only [fs_rename, hsrc1]
    unfold fs_exists
    rw [fs_get_set_other _ _ _ _ hrd_ne_dst,
      fs_get_remove_other _ _ _ hrd, fs_get_set_same]
    rfl
  · constructor
    · simp [delete_directory]
    · simp [delete_directory, fs_get_remove_same]

/-- C7 witness: a one-checkpoint filesystem, exercised on a non-zero
process, a soft delete into `archive`, and a physical delete. -/
theorem c7_delete_directory_contract_witness :
    delete_directory 3 (some "archive") "root" 5
      [("root/checkpoint_5", 42)] = [("root/checkpoint_5", 42)] ∧
    fs_get (delete_directory 0 (some "archive") "root" 5
      [("root/checkpoint_5", 42)]) ("root" ++ "/" ++ checkpoint_name 5) = none ∧
    fs_get (delete_directory 0 (some "archive") "root" 5
      [("root/checkpoint_5", 42)])
      ("root" ++ "/" ++ "archive" ++ "/" ++ checkpoint_name 5) = some 42 ∧
    fs_exists (delete_directory 0 (some "archive") "root" 5
      [("root/checkpoint_5", 42)]) ("root" ++ "/" ++ "archive") = true ∧
    fs_get (delete_directory 0 none "root" 5
      [("root/checkpoint_5", 42)]) ("root" ++ "/" ++ checkpoint_name 5) = none :=
  ⟨c7_delete_directory_contract.1 3 (some "archive") "root" 5
      [("root/checkpoint_5", 42)] (by decide),
   (c7_delete_directory_contract.2.1 "archive" "root" 5
      [("root/checkpoint_5", 42)] 42 (by decide) (by decide)).1,
   (c7_delete_directory_contract.2.1 "archive" "root" 5
      [("root/checkpoint_5", 42)] 42 (by decide) (by decide)).2,
   c7_delete_directory_contract.2.2.1 "archive" "root" 5
      [("root/checkpoint_5", 42)] 42 (by decide) (by decide) (by decide)
      (by decide),
   (c7_delete_directory_contract.2.2.2 "root" 5
      [("root/checkpoint_5", 42)]).2⟩

/-- C2: when the reward function returns NaN at a reporting step (metric
reporting role, process 0, eval or decode mode), the early-stopping callback
raises the NaN-reward error, which is caught by the per-trial
skip-on-exceptions scope — whose allowlist always contains the NaN-reward
class in addition to the configured errors-to-skip — so the trial is
reported as skipped and the tuning loop proceeds to the remaining trials
without the exception propagating. -/
theorem c2_nan_reward_skips_trial (reward_fn : FDict → Nat → RewardVal)
    (sub_experiment_id : String) (tuning_step_begin : Nat)
    (is_last_experiment : Bool) (metrics : FDict) (global_step : Nat)
    (is_last_ckpt feedback_should_stop : Bool) (errors_to_skip : List Exc)
    (rest : List (Except Exc Unit))
    (h : (reward_fn (suffix_metrics metrics sub_experiment_id)
        (tuning_step_begin + global_step)).isNaN = true) :
    tune_loop errors_to_skip
      (Except.map (fun _ => ())
        (should_stop_early true 0 true reward_fn sub_experiment_id
          tuning_step_begin is_last_experiment metrics global_step
          is_last_ckpt feedback_should_stop) :: rest)
      = TrialOutcome.skipped Exc.floatingPointError
          :: tune_loop errors_to_skip rest := by
  simp [should_stop_early, h, Except.map, tune_loop, skip_on_exceptions,
    trial_skip_allowlist]

/-- C2 witness: a reward function that is NaN everywhere skips the single
trial and leaves the (empty) remainder of the loop to proceed. -/
theorem c2_nan_reward_skips_trial_witness :
    tune_loop []
      (Except.map (fun _ => ())
        (should_stop_early true 0 true (fun _ _ => { isNaN := true, val := 0 })
          "" 0 true [] 3 false false) :: [])
      = TrialOutcome.skipped Exc.floatingPointError :: tune_loop [] [] :=
  c2_nan_reward_skips_trial (fun _ _ => { isNaN := true, val := 0 })
    "" 0 true [] 3 false false [] [] rfl

/-- C4: for a sub-experiment with zero-based index `i` and raw global step
`s`, the measurement reported to the search controller by the early-stopping
callback carries tuning step `i * 1,000,000,000 + s`. -/
theorem c4_tuning_step_offset (i global_step : Nat)
    (reward_fn : FDict → Nat → RewardVal) (sub_experiment_id : String)
    (is_last_experiment : Bool) (metrics : FDict)
    (is_last_ckpt feedback_should_stop : Bool)
    (h : (reward_fn (suffix_metrics metrics sub_experiment_id)
        (tuning_step_start i + global_step)).isNaN = false) :
    reported_step (should_stop_early true 0 true reward_fn sub_experiment_id
        (tuning_step_start i) is_last_experiment metrics global_step
        is_last_ckpt feedback_should_stop)
      = some (i * 1000000000 + global_step) := by
  have h' := h
  simp only [tuning_step_start, SUB_EXPERIMENT_STEP_OFFSET] at h'
  simp [should_stop_early, h', reported_step, tuning_step_start,
    SUB_EXPERIMENT_STEP_OFFSET]

/-- C4 witness: sub-experiment index 2 and raw step 5 report tuning step
2,000,000,005. -/
theorem c4_tuning_step_offset_witness :
    reported_step (should_stop_early true 0 true
        (fun _ _ => { isNaN := false, val := 0 }) "" (tuning_step_start 2)
        true [] 5 false false)
      = some 2000000005 := by
  have h := c4_tuning_step_offset 2 5 (fun _ _ => { isNaN := false, val := 0 })
    "" true [] false false rfl
  simpa using h

/-- C10: whenever an eval (resp. decode) metrics bundle is supplied, the
merged mapping binds the key `eval_steps_per_sec` (resp.
`decode_steps_per_sec`) to the bundle's `steps_per_sec` field even when that
field is absent (`None`) — unlike `train_steps_per_sec` and `num_params`,
which are added only when their values are non-`None` — so the nominally
float-valued output mapping can bind these two keys to a missing value. -/
theorem c10_steps_per_sec_keys :
    (∀ (tm etm : Option FDict) (ev : EvalMetrics) (dm : Option DecodeMetrics)
        (np ts : Option Int),
      dget (aggregate_metrics tm etm (some ev) dm np ts) "eval_steps_per_sec"
        = some ev.steps_per_sec) ∧
    (∀ (tm etm : Option FDict) (em : Option EvalMetrics) (dm : DecodeMetrics)
        (np ts : Option Int),
      dget (aggregate_metrics tm etm em (some dm) np ts) "decode_steps_per_sec"
        = some dm.steps_per_sec) ∧
    (dget (aggregate_metrics none none
        (some { input_p := some ["d"], metrics_list := some [some [("a", some 2)]],
                scoring_metrics_list := none, steps_per_sec := none })
        none none none) "train_steps_per_sec" = none ∧
     dget (aggregate_metrics none none
        (some { input_p := some ["d"], metrics_list := some [some [("a", some 2)]],
                scoring_metrics_list := none, steps_per_sec := none })
        none none none) "num_params" = none ∧
     dget (aggregate_metrics none none
        (some { input_p := some ["d"], metrics_list := some [some [("a", some 2)]],
                scoring_metrics_list := none, steps_per_sec := none })
        none none none) "eval_steps_per_sec" = some none) := by
  refine ⟨fun tm etm ev dm np ts => ?_, fun tm etm em dm np ts => ?_,
    by decide, by decide, by decide⟩
  · simp only [aggregate_metrics]
    cases np <;> cases dm <;>
      simp [dget_dset_same,
        dget_dset_other _ _ _ _ (by decide : ("eval_steps_per_sec" : String) ≠ "num_params"),
        dget_dset_other _ _ _ _ (by decide : ("eval_steps_per_sec" : String) ≠ "decode_steps_per_sec")]
  · simp only [aggregate_metrics]
    cases np <;>
      simp [dget_dset_same,
        dget_dset_other _ _ _ _ (by decide : ("decode_steps_per_sec" : String) ≠ "num_params")]

/-- C3 counterexample: with train metric `{a: 1}`, eval metric `{a: 2}` on
dataset `d`, and decode metric `{a: 3}` on dataset `d`, the merged mapping
does not bind the bare key `a` at all — every family write renames its keys
with a family prefix (`train/a`, `eval_test_d/metrics/a`,
`decode_test_d/a`) — refuting the claim that the merged mapping has
`a == 3`. -/
theorem c3_merge_counterexample :
    dget (aggregate_metrics (some [("a", some 1)]) none
      (some { input_p := some ["d"], metrics_list := some [some [("a", some 2)]],
              scoring_metrics_list := none, steps_per_sec := none })
      (some { input_p := some ["d"], metrics_list := some [some [("a", some 3)]],
              processed_metrics_list := none, seqio_metrics_list := none,
              steps_per_sec := none })
      none none) "a" = none := by decide

/-- C3 amended: the aggregator merges the metric families in the fixed order
train, eval-train, eval, decode, scalars, with every key namespaced by its
family prefix, so the example's train `{a: 1}`, eval `{a: 2}` and decode
`{a: 3}` surface as `train/a = 1`, `eval_test_d/metrics/a = 2` and
`decode_test_d/a = 3`; later writes for the same final (prefixed) key
overwrite earlier ones, as when the decode seqio list overwrites the decode
metrics list for the same dataset and key; and per-dataset entries whose
metrics value is `None` are skipped rather than merged. -/
theorem c3_merge_amended :
    (dget (aggregate_metrics (some [("a", some 1)]) none
      (some { input_p := some ["d"], metrics_list := some [some [("a", some 2)]],
              scoring_metrics_list := none, steps_per_sec := none })
      (some { input_p := some ["d"], metrics_list := some [some [("a", some 3)]],
              processed_metrics_list := none, seqio_metrics_list := none,
              steps_per_sec := none })
      none none) "train/a" = some (some 1) ∧
     dget (aggregate_metrics (some [("a", some 1)]) none
      (some { input_p := some ["d"], metrics_list := some [some [("a", some 2)]],
              scoring_metrics_list := none, steps_per_sec := none })
      (some { input_p := some ["d"], metrics_list := some [some [("a", some 3)]],
              processed_metrics_list := none, seqio_metrics_list := none,
              steps_per_sec := none })
      none none) "eval_test_d/metrics/a" = some (some 2) ∧
     dget (aggregate_metrics (some [("a", some 1)]) none
      (some { input_p := some ["d"], metrics_list := some [some [("a", some 2)]],
              scoring_metrics_list := none, steps_per_sec := none })
      (some { input_p := some ["d"], metrics_list := some [some [("a", some 3)]],
              processed_metrics_list := none, seqio_metrics_list := none,
              steps_per_sec := none })
      none none) "decode_test_d/a" = some (some 3)) ∧
    (∀ (m : FDict) (p : String) (ps : List String) (ms : List (Option FDict))
        (dt c : Option String),
      add_input_based_metrics m (some (p :: ps)) (some (none :: ms)) dt c
        = add_input_based_metrics m (some ps) (some ms) dt c) ∧
    dget (aggregate_metrics none none none
      (some { input_p := some ["d"], metrics_list := some [some [("k", some 1)]],
              processed_metrics_list := none,
              seqio_metrics_list := some [some [("k", some 2)]],
              steps_per_sec := none })
      none none) "decode_test_d/k" = some (some 2) := by
  refine ⟨⟨by decide, by decide, by decide⟩, fun m p ps ms dt c => rfl, by decide⟩

/-- C6: the trial directory name is a deterministic function of the trial id
and DNA; with decision names totalling under the threshold, each decision
renders as `name=value` joined by `|` (values only otherwise); integers
render as-is, floats in 3-significant-digit scientific notation, categorical
literals are cleaned of quotes and of fully qualified class reprs, custom
decision points render as the fixed `(CUSTOM)` placeholder, and a choice
whose literal is not filesystem-safe falls back to the parenthesized option
index — so for decisions `x = 1` (int), `y = 'abc'`, `z` the second of three
non-path-friendly options, the output is `<root>/<id>/x=1|y=abc|z=(1)`. -/
theorem c6_trial_dirname_contract :
    dirname "my_experiment" 64 c6_spec 123 c6_dna
      = "my_experiment/123/x=1|y=abc|z=(1)" ∧
    dirname "my_experiment" 3 c6_spec 123 c6_dna
      = "my_experiment/123/1|abc|(1)" ∧
    (∀ n : Int, format_literal (Literal.int n) = toString n) ∧
    format_literal (Literal.float c6_half) = "5.000e-01" ∧
    format_literal (Literal.float c6_big) = "1.235e+05" ∧
    format_literal (Literal.str "\x27abc\x27") = "abc" ∧
    format_literal (Literal.str "<class \x27pax.models.Foo\x27>") = "Foo" ∧
    (∀ (name : String) (d : Decision),
      decision_value_str (DecisionPoint.customDP name) d = "(CUSTOM)") ∧
    decision_value_str
      (DecisionPoint.choices "z"
        [Literal.str "a/b", Literal.str "c/d", Literal.str "e/f"])
      (Decision.choice 1) = "(1)" :=
  ⟨by decide, by decide, fun n => rfl, by decide, by decide, by decide,
   by decide, fun name d => rfl, by decide⟩
